import Mathlib

set_option maxRecDepth 100000

/-!
# Verification of the hello-aviation grid pipeline

Shallow embedding of the HRRR-derived hazard products (wind gusts, Froude
number, virga potential) and their caching/prefetch infrastructure, translated
from `winds.py`, `froude.py`, `virga.py` and `prefetch.py`.  Grid values are
modelled as exact rationals (`ℚ`) for the per-cell arithmetic that the claims
quantify over, and as reals (`ℝ`) where the source formula involves `sqrt` and
fractional powers.  A NaN grid value is modelled as `none : Option ℚ`.
-/

namespace Aviation

/- ───────────────────────── froude.py: _classify ───────────────────────── -/

/-- From `froude.py` `_classify` (lines 180–187): the four numpy mask
assignments are applied in sequence to an array initialised to zero; per cell
this is the following chain of conditional overwrites. -/
def classify (fr : ℚ) : ℤ :=
  let cat : ℤ := 0
  let cat := if fr < 0.5 then 1 else cat
  let cat := if 0.5 ≤ fr ∧ fr < 0.8 then 2 else cat
  let cat := if 0.8 ≤ fr ∧ fr ≤ 1.5 then 3 else cat
  let cat := if 1.5 < fr then 4 else cat
  cat

/-- The spec's classification table, written as the spec words it
(`Fr<0.5→1; 0.5≤Fr<0.8→2; 0.8≤Fr≤1.5→3; Fr>1.5→4`), to compare with
the source's sequential-mask implementation. -/
def classifySpec (fr : ℚ) : ℤ :=
  if fr < 0.5 then 1
  else if fr < 0.8 then 2
  else if fr ≤ 1.5 then 3
  else 4

/- ─────────────── winds.py / froude.py / virga.py: longitude ────────────── -/

/-- Longitude normalisation applied before the bounding-box mask, from
`winds.py` line 168 / `froude.py` line 100 / `virga.py` line 158:
`lon2d = np.where(lon2d > 180, lon2d - 360, lon2d)`, per cell. -/
def normalizeLon (l : ℚ) : ℚ :=
  if l > 180 then l - 360 else l

/- ─────────────── winds.py / froude.py: _find_latest_hrrr_cycle ──────────── -/

/-- One inventory probe against the grid source: `Except.ok` when
`Herbie(...).inventory()` returns, `Except.error` when it raises.  The probe
outcome may depend on the candidate cycle (an hour offset from `base`,
as an integer hour count). -/
abbrev Probe := ℤ → Except Unit Unit

/-- The body of the lookback loop in `_find_latest_hrrr_cycle`
(`winds.py` lines 59–75, identical in `froude.py` lines 62–71): try each
offset in order, return the first candidate whose probe succeeds; any probe
exception is swallowed and the next candidate is tried. -/
def findCycleLoop (probe : Probe) (base : ℤ) : List ℕ → ℤ
  | [] => base - 2
  | h :: rest =>
    match probe (base - h) with
    | .ok _ => base - h
    | .error _ => findCycleLoop probe base rest

/-- Function `_find_latest_hrrr_cycle(max_lookback_hours)` from `winds.py` lines 51–75
(also `froude.py` 60–71): walk offsets `0, 1, …, max_lookback_hours` from the
current hour `base`; fall back to `base - 2` when every probe fails.  Times
are modelled in whole hours (`ℤ`). -/
def findLatestHrrrCycle (probe : Probe) (base : ℤ) (maxLookback : ℕ) : ℤ :=
  findCycleLoop probe base (List.range (maxLookback + 1))

/- ─────────────── froude.py: _potential_temp / _brunt_vaisala ───────────── -/

/-- Gravity constant `G = 9.81` from `froude.py` line 48. -/
noncomputable def G : ℝ := 9.81

/-- Function `_potential_temp` (`froude.py` lines 122–124):
`θ = T * (1000/p) ** 0.286`, with T in Kelvin and p in mb. -/
noncomputable def potentialTemp (tK pMb : ℝ) : ℝ :=
  tK * (1000 / pMb) ^ (0.286 : ℝ)

/-- Function `_brunt_vaisala` (`froude.py` lines 127–148), per cell:
`N2 = np.maximum((G / theta_mean) * (delta_theta / delta_z), 1e-6)`
followed by `np.sqrt(N2)`. -/
noncomputable def bruntVaisala (t850 t500 gh850 gh500 : ℝ) : ℝ :=
  let theta850 := potentialTemp t850 850
  let theta500 := potentialTemp t500 500
  let thetaMean := 0.5 * (theta850 + theta500)
  let deltaTheta := theta500 - theta850
  let deltaZ := gh500 - gh850
  let n2 := max ((G / thetaMean) * (deltaTheta / deltaZ)) 1e-6
  Real.sqrt n2

/-- The raw (unclamped) N² expression of the spec's formula
`(g/θ_mean)·(θ_500 − θ_850)/(z_500 − z_850)` with `g = 9.81` and
`θ(T,p) = T·(1000/p)^0.286`. -/
noncomputable def rawN2 (t850 t500 gh850 gh500 : ℝ) : ℝ :=
  (9.81 / (0.5 * (potentialTemp t850 850 + potentialTemp t500 500))) *
    ((potentialTemp t500 500 - potentialTemp t850 850) / (gh500 - gh850))

/- ───────────────────────── virga.py: fetch_virga ───────────────────────── -/

/-- Constant `LEVELS_MB` from `virga.py` lines 59–60: the 15 pressure levels (mb) read
from the HRRR prs file. -/
def LEVELS_MB : List ℕ :=
  [500, 525, 550, 575, 600, 625, 650, 675, 700, 725, 750, 775, 800, 825, 850]

/-- Slice `upper_levels` (`virga.py` line 213): the levels at or above 700 mb
(pressure ≤ 700), in the order of `LEVELS_MB`. -/
def upperLevels : List ℕ := LEVELS_MB.filter (· ≤ 700)

/-- One cell's relative-humidity column: the RH value (%) at each pressure
level, as computed upstream by `_rh_from_t_td` and clipped into a dict keyed
by level. -/
abbrev RHColumn := ℕ → ℚ

/-- The mean of `rh` over the levels of a window (`np.mean([...], axis=0)`
at `virga.py` line 223, per cell). -/
def meanRH (rh : RHColumn) (window : List ℕ) : ℚ :=
  (window.map rh).sum / window.length

/-- The window scanned for anchor level `lev_top` (`virga.py` lines 219–220):
`lev_bot = lev_top + 200` and the window keeps the upper levels between
`lev_top` and `lev_bot`. -/
def windowFor (levTop : ℕ) : List ℕ :=
  upperLevels.filter fun lev => levTop ≤ lev ∧ lev ≤ levTop + 200

/-- Accumulator `max_upper_rh` (`virga.py` lines 215–224), per cell: starting from 0,
fold over every anchor level; windows with fewer than 2 levels are skipped;
otherwise take the running maximum of the window means. -/
def maxUpperRh (rh : RHColumn) : ℚ :=
  upperLevels.foldl
    (fun acc levTop =>
      if (windowFor levTop).length < 2 then acc
      else max acc (meanRH rh (windowFor levTop)))
    0

/-- Order `scan_levels` (`virga.py` line 232): `sorted(LEVELS_MB, reverse=True)`,
the levels from 850 mb down to 500 mb (bottom of the column to the top);
`LEVELS_MB` is listed ascending, so this is its reverse. -/
def scanLevels : List ℕ := LEVELS_MB.reverse

/-- Accumulator `max_rh_decrease` (`virga.py` lines 234–252), per cell: scan bottom-up;
at each level with a partner 100 mb above, the decrease is
`rh[lev_bot] - rh[lev_top]`; keep the value where it strictly exceeds the
running maximum (`better = decrease_here > max_rh_decrease`).  The
cloud-base-wind tracking updated alongside it does not feed `virga_pct` and
is not modelled here. -/
def maxRhDecrease (rh : RHColumn) : ℚ :=
  scanLevels.foldl
    (fun acc levBot =>
      if (levBot - 100) ∈ LEVELS_MB then
        let decrease := rh levBot - rh (levBot - 100)
        if decrease > acc then decrease else acc
      else acc)
    0

/-- Output `virga_pct` (`virga.py` lines 255–258), per cell:
`np.where(upper_cloud_present, max_rh_decrease, 0.0)` with
`upper_cloud_present = max_upper_rh >= 80.0`, then `np.clip(·, 0, 100)`. -/
def virgaPct (rh : RHColumn) : ℚ :=
  let gated := if maxUpperRh rh ≥ 80 then maxRhDecrease rh else 0
  min (max gated 0) 100

/-- Modelled from the spec's words (claim C2): the maximum, over every
200-mb-thick window lying entirely within 500–700 mb, of the mean RH across
the levels in that window.  A window `[a, a+200]` lies entirely within
500–700 only when `500 ≤ a` and `a + 200 ≤ 700`. -/
def specMaxWindowMean (rh : RHColumn) : ℚ :=
  (upperLevels.filter fun a => a + 200 ≤ 700).foldl
    (fun acc a =>
      max acc (meanRH rh (upperLevels.filter fun lev => a ≤ lev ∧ lev ≤ a + 200)))
    0

/-- An RH column refuting C2 as stated: RH = 100 % at 675 and 700 mb, 95 % at
850 mb, 0 % elsewhere. -/
def rhCounter : RHColumn := fun lev =>
  if lev = 675 ∨ lev = 700 then 100 else if lev = 850 then 95 else 0

/-- An RH column for the witness: RH = 79.999 % throughout 500–700 mb, 95 %
at 850 mb, 0 % elsewhere below 700 mb. -/
def rhWitness : RHColumn := fun lev =>
  if lev ≤ 700 then 79999/1000 else if lev = 850 then 95 else 0

/- ───────────── froude.py / virga.py / winds.py: result caches ──────────── -/

/-- One entry of a keyed result cache: `{"ts": now, "data": ...}`
(`froude.py` line 296, `virga.py` line 299). -/
structure CacheEntry (α : Type) where
  ts : ℚ
  data : α
deriving DecidableEq

/-- The keyed in-memory `_CACHE` of `froude.py` line 51 and `virga.py`
line 63: a dict keyed by `(cycle_utc, fxx)`, modelled as an association
list where assignment overwrites the key. -/
abbrev KeyedCache (α : Type) := List ((String × ℕ) × CacheEntry α)

/-- Read `_CACHE.get(key)`. -/
def lookupCache {α : Type} (c : KeyedCache α) (k : String × ℕ) :
    Option (CacheEntry α) :=
  (c.find? fun p => p.1 = k).map Prod.snd

/-- Write `_CACHE[key] = entry` (dict assignment replaces any entry at the key). -/
def insertCache {α : Type} (c : KeyedCache α) (k : String × ℕ)
    (e : CacheEntry α) : KeyedCache α :=
  (k, e) :: c.filter fun p => ¬ p.1 = k

/-- Wrapper `get_froude_cached` (`froude.py` lines 290–297): compute and store on a
miss or when `now - ts > ttl`, then return the stored payload.  The network
fetch `fetch_froude` is abstracted as `fetch`, and wall-clock time is the
explicit argument `now`. -/
def getFroudeCached {α : Type} (fetch : String → ℕ → α) (cycleUtc : String)
    (fxx : ℕ) (ttl now : ℚ) (c : KeyedCache α) : α × KeyedCache α :=
  match lookupCache c (cycleUtc, fxx) with
  | some e =>
    if now - e.ts > ttl then
      let d := fetch cycleUtc fxx
      (d, insertCache c (cycleUtc, fxx) ⟨now, d⟩)
    else (e.data, c)
  | none =>
    let d := fetch cycleUtc fxx
    (d, insertCache c (cycleUtc, fxx) ⟨now, d⟩)

/-- Wrapper `get_virga_cached` (`virga.py` lines 294–300): identical wrapper around
`fetch_virga`. -/
def getVirgaCached {α : Type} (fetch : String → ℕ → α) (cycleUtc : String)
    (fxx : ℕ) (ttl now : ℚ) (c : KeyedCache α) : α × KeyedCache α :=
  match lookupCache c (cycleUtc, fxx) with
  | some e =>
    if now - e.ts > ttl then
      let d := fetch cycleUtc fxx
      (d, insertCache c (cycleUtc, fxx) ⟨now, d⟩)
    else (e.data, c)
  | none =>
    let d := fetch cycleUtc fxx
    (d, insertCache c (cycleUtc, fxx) ⟨now, d⟩)

/-- The winds module cache `_CACHE = {"ts": 0.0, "data": None}`
(`winds.py` line 38): a single global slot, not keyed. -/
structure WindsCache (α : Type) where
  ts : ℚ
  data : Option α
deriving DecidableEq

/-- Wrapper `get_hrrr_gusts_cached` (`winds.py` lines 228–241): refetch when the slot
is empty or `now - ts > ttl`, else return the slot's payload whatever request
it was stored for.  `fetch` abstracts `fetch_hrrr_gusts(fxx=fxx)`. -/
def getHrrrGustsCached {α : Type} (fetch : ℕ → α) (fxx : ℕ) (ttl now : ℚ)
    (c : WindsCache α) : α × WindsCache α :=
  match c.data with
  | none => let d := fetch fxx; (d, ⟨now, some d⟩)
  | some d0 =>
    if now - c.ts > ttl then let d := fetch fxx; (d, ⟨now, some d⟩)
    else (d0, c)

/-- A keyed cache is well-formed for `fetch` when every stored payload is the
one `fetch` computes for that entry's own key. -/
def KeyedCacheWF {α : Type} (fetch : String → ℕ → α) (c : KeyedCache α) : Prop :=
  ∀ k e, (k, e) ∈ c → e.data = fetch k.1 k.2

/- ───────────────────────── winds.py: fetch_hrrr_gusts ──────────────────── -/

/-- Colorado bounding box (`winds.py` lines 29–32, identical in `froude.py`
and `virga.py`). -/
def CO_LAT_MIN : ℚ := 36.8
def CO_LAT_MAX : ℚ := 41.2
def CO_LON_MIN : ℚ := -109.2
def CO_LON_MAX : ℚ := -101.9

/-- The bounding-box mask condition of `winds.py` lines 173–176, per cell. -/
def inBBox (lat lon : ℚ) : Bool :=
  CO_LAT_MIN ≤ lat ∧ lat ≤ CO_LAT_MAX ∧ CO_LON_MIN ≤ lon ∧ lon ≤ CO_LON_MAX

/-- The `(row, col)` indices where the mask is true, row-major, as
`np.where(mask)` produces them. -/
def maskIndices (lat2d lon2d : List (List ℚ)) : List (ℕ × ℕ) :=
  (lat2d.zip lon2d).enum.flatMap fun ir =>
    (ir.2.1.zip ir.2.2).enum.filterMap fun jc =>
      if inBBox jc.2.1 jc.2.2 then some (ir.1, jc.1) else none

/-- Python's banker's rounding (`round`) to an integer: half-way values go to
the even neighbour. -/
def roundHalfEven (x : ℚ) : ℤ :=
  let f := ⌊x⌋
  if x - f < 1/2 then f
  else if x - f > 1/2 then f + 1
  else if f % 2 = 0 then f else f + 1

/-- Python `round(x, d)`: round to `d` decimal places. -/
def roundTo (d : ℕ) (x : ℚ) : ℚ :=
  (roundHalfEven (x * 10 ^ d) : ℚ) / 10 ^ d

/-- A numpy `[start:stop]` row/column slice. -/
def sliceList {β : Type} (start stop : ℕ) (l : List β) : List β :=
  (l.drop start).take (stop - start)

/-- A numpy `[::step]` stride: keep the elements whose index is a multiple of
`step`. -/
def everyNth {β : Type} (step : ℕ) (l : List β) : List β :=
  l.enum.filterMap fun p => if p.1 % step = 0 then some p.2 else none

/-- Slice `arr[r0:r1, c0:c1]` on a 2-D list. -/
def slice2d {β : Type} (r0 r1 c0 c1 : ℕ) (g : List (List β)) :
    List (List β) :=
  (sliceList r0 r1 g).map fun row => sliceList c0 c1 row

/-- Stride `arr[::step, ::step]` on a 2-D list. -/
def stride2d {β : Type} (step : ℕ) (g : List (List β)) : List (List β) :=
  (everyNth step g).map fun row => everyNth step row

/-- One emitted gust record (`winds.py` lines 209–213). -/
structure GustPoint where
  lat : ℚ
  lon : ℚ
  gust_kt : ℚ
deriving DecidableEq

/-- The value-processing core of `fetch_hrrr_gusts` (`winds.py` lines
163–213), from the extracted gust field onwards: normalise longitudes,
build the bounding-box mask (raising when it selects no points), slice to
the masked row/column extent, convert m/s → knots, stride by 2, and emit one
record per non-NaN cell (`none` models NaN) with values rounded as the source
rounds them.  No range validation of the gust values is performed anywhere
on this path. -/
def gustPointsCore (lat2d lon2dRaw : List (List ℚ))
    (gust : List (List (Option ℚ))) : Except String (List GustPoint) :=
  let lon2d := lon2dRaw.map fun row => row.map normalizeLon
  let idxs := maskIndices lat2d lon2d
  if idxs = [] then
    .error "No HRRR grid points found inside the Colorado bounding box."
  else
    let rows := idxs.map Prod.fst
    let cols := idxs.map Prod.snd
    let r0 := rows.foldl min (rows.headD 0)
    let r1 := rows.foldl max (rows.headD 0) + 1
    let c0 := cols.foldl min (cols.headD 0)
    let c1 := cols.foldl max (cols.headD 0) + 1
    let latCo := slice2d r0 r1 c0 c1 lat2d
    let lonCo := slice2d r0 r1 c0 c1 lon2d
    let gustCo := slice2d r0 r1 c0 c1 gust
    let gustKt := gustCo.map fun row => row.map fun v => v.map (· * 1.94384)
    let latDs := stride2d 2 latCo
    let lonDs := stride2d 2 lonCo
    let gustDs := stride2d 2 gustKt
    let points :=
      ((latDs.zip lonDs).zip gustDs).flatMap fun rowTriple =>
        ((rowTriple.1.1.zip rowTriple.1.2).zip rowTriple.2).filterMap fun cell =>
          cell.2.map fun g =>
            ⟨roundTo 4 cell.1.1, roundTo 4 cell.1.2, roundTo 1 g⟩
    .ok points

/- ─────────────── froude.py: _read_field and the terrain fallback ────────── -/

/-- One GRIB message: its selector attributes and its (abstract) field data.
Coordinate arrays are elided here; their handling is modelled by
`normalizeLon`. -/
structure GribMsg (α : Type) where
  name : String
  typeOfLevel : String
  level : ℕ
  data : α

/-- Function `_read_field` (`froude.py` lines 84–101): `pygrib.select` returns the
messages matching the selector and raises `ValueError` when there are none
(re-raised as the "Field not found" error); the code then reads `msgs[0]`,
the first match. -/
def readFieldSel {α : Type} (msgs : List (GribMsg α)) (name : String)
    (level : ℕ) (typeOfLevel : String) : Except String α :=
  match msgs.filter fun m =>
      m.name = name ∧ m.typeOfLevel = typeOfLevel ∧ m.level = level with
  | [] => .error "Field not found"
  | m :: _ => .ok m.data

/-- The terrain-field resolution of `fetch_froude` (`froude.py` lines
219–231): try `Orography` at the surface, then `Geometric height`, and as a
last resort use the already-read 850-mb geopotential height as a proxy. -/
def froudeTerrain {α : Type} (sfcMsgs : List (GribMsg α)) (gh850 : α) : α :=
  match readFieldSel sfcMsgs "Orography" 0 "surface" with
  | .ok orog => orog
  | .error _ =>
    match readFieldSel sfcMsgs "Geometric height" 0 "surface" with
    | .ok orog => orog
    | .error _ => gh850

/- ──────────── winds.py signature, its call sites, and prefetch.py ───────── -/

/-- The parameter list of `get_hrrr_gusts_cached` (`winds.py` line 228):
`def get_hrrr_gusts_cached(fxx: int = 0, ttl_seconds: int = 600)` — there is
no `cycle_utc` parameter and no `**kwargs`. -/
def getHrrrGustsCachedParams : List String := ["fxx", "ttl_seconds"]

/-- Python keyword binding against a signature without `**kwargs`: the call
raises `TypeError` unless every keyword names a declared parameter.  (The
modelled call sites pass keywords only.) -/
def bindKwargs (params kwargs : List String) : Except String Unit :=
  if kwargs.all fun k => params.contains k then .ok ()
  else .error "TypeError: unexpected keyword argument"

/-- The keywords of the prefetcher's gust call (`prefetch.py` line 57):
`get_hrrr_gusts_cached(cycle_utc=cycle_utc, fxx=fxx, ttl_seconds=3600)`. -/
def prefetchGustCallKwargs : List String := ["cycle_utc", "fxx", "ttl_seconds"]

/-- The keywords of the winds route's gust call (`app.py` line 1439):
`get_hrrr_gusts_cached(cycle_utc=cycle_utc, fxx=fxx, ttl_seconds=ttl)`. -/
def appGustCallKwargs : List String := ["cycle_utc", "fxx", "ttl_seconds"]

/-- The cycle used by `fetch_hrrr_gusts` (`winds.py` line 118):
`cycle = _find_latest_hrrr_cycle()` with the default lookback of 6 — resolved
internally, with no way for the caller to supply one. -/
def fetchHrrrGustsCycle (probe : Probe) (base : ℤ) : ℤ :=
  findLatestHrrrCycle probe base 6

/-- The module-level names bound by `winds.py` (imports, constants and its
four functions).  `get_cycle_status_cached` is not among them. -/
def windsModuleNames : List String :=
  ["os", "time", "np", "Path", "datetime", "timedelta", "timezone", "xr",
   "Herbie", "HERBIE_DIR", "CO_LAT_MIN", "CO_LAT_MAX", "CO_LON_MIN",
   "CO_LON_MAX", "_CACHE", "_now_utc_hour_naive", "_find_latest_hrrr_cycle",
   "_extract_gust_variable", "fetch_hrrr_gusts", "get_hrrr_gusts_cached"]

/-- The prefetcher's shared state (`prefetch.py` lines 29–35): the
per-(product, fxx) status strings and the recorded cycle. -/
structure PrefetchState where
  status : List (String × List (ℕ × String))
  cycleInUse : Option String
deriving DecidableEq

/-- State `_STATUS` / `_CYCLE_IN_USE` at startup: every (product, fxx ∈ 1..12) is
"pending" and no cycle is recorded. -/
def initPrefetchState : PrefetchState :=
  { status := ["winds", "froude", "virga"].map fun p =>
      (p, (List.range 12).map fun i => (i + 1, "pending"))
    cycleInUse := none }

/-- One pass of `_prefetch_loop` (`prefetch.py` lines 89–117).  The body's
first statement is `from winds import get_cycle_status_cached`; when that
name is missing from the winds module the import raises, the blanket
`except Exception` swallows it, and the pass leaves the state untouched.
Everything the body would do after a successful import is abstracted as
`rest` — it is unreachable regardless of its behaviour. -/
def prefetchLoopPass (rest : PrefetchState → PrefetchState)
    (s : PrefetchState) : PrefetchState :=
  if windsModuleNames.contains "get_cycle_status_cached" then rest s else s

/-- Every (product, fxx) status in the state is "pending". -/
def allPending (s : PrefetchState) : Bool :=
  s.status.all fun p => p.2.all fun f => f.2 = "pending"

/- ────────────────────────────── Theorems ────────────────────────────── -/

/-- C1: the sequential-mask classifier agrees with the spec's table
(Fr<0.5→1; 0.5≤Fr<0.8→2; 0.8≤Fr≤1.5→3; Fr>1.5→4), and in particular
0.4999→1, 0.5→2, 0.8→3, 1.5→3, 1.5000001→4. -/
theorem classify_matches_spec :
    (∀ fr : ℚ, classify fr = classifySpec fr) ∧
    classify (4999/10000) = 1 ∧ classify (1/2) = 2 ∧ classify (4/5) = 3 ∧
    classify (3/2) = 3 ∧ classify (15000001/10000000) = 4 := by
  refine ⟨fun fr => ?_, by norm_num [classify], by norm_num [classify],
    by norm_num [classify], by norm_num [classify], by norm_num [classify]⟩
  unfold classify classifySpec
  split_ifs <;> simp_all <;> linarith

/-- C7: for every raw longitude in an input grid (HRRR grids carry longitudes
in the 0–360 convention), the normalised longitude lies in (-180, 180] and is
congruent to the raw value modulo 360. -/
theorem normalizeLon_correct (L : ℚ) (h0 : 0 ≤ L) (h1 : L ≤ 360) :
    (-180 < normalizeLon L ∧ normalizeLon L ≤ 180) ∧
    ∃ k : ℤ, L - normalizeLon L = 360 * k := by
  unfold normalizeLon
  split_ifs with h
  · exact ⟨⟨by linarith, by linarith⟩, 1, by ring⟩
  · exact ⟨⟨by linarith, by linarith⟩, 0, by ring⟩

/-- Witness for C7 at the concrete raw longitude 255 (a point over Colorado
in the 0–360 convention): it normalises to -105, and 255 - (-105) = 360. -/
theorem normalizeLon_correct_witness :
    (0:ℚ) ≤ 255 ∧ (255:ℚ) ≤ 360 ∧
    ((-180 < normalizeLon 255 ∧ normalizeLon 255 ≤ 180) ∧
      ∃ k : ℤ, (255:ℚ) - normalizeLon 255 = 360 * k) :=
  ⟨by norm_num, by norm_num, normalizeLon_correct 255 (by norm_num) (by norm_num)⟩

/-- Loop characterisation: the lookback loop returns `base - h` for the first
offset `h` in the list whose probe succeeds, and `base - 2` when none does. -/
theorem findCycleLoop_eq_find (probe : Probe) (base : ℤ) (hs : List ℕ) :
    findCycleLoop probe base hs =
      ((hs.find? fun h => (probe (base - h)).isOk).elim (base - 2)
        fun h => base - h) := by
  induction hs with
  | nil => rfl
  | cons h rest ih =>
    cases hp : probe (base - h) with
    | ok v =>
      simp [findCycleLoop, hp, List.find?_cons, Except.isOk, Except.toBool]
    | error e =>
      simp [findCycleLoop, hp, List.find?_cons, Except.isOk, Except.toBool, ih]

/-- C8: for every pattern of probe successes and failures, the cycle resolver
is a total function (no exception escapes) equal to: the first candidate
`base - h`, `h = 0, …, max_lookback_hours`, whose inventory probe succeeds,
and `base - 2` when all probes fail. -/
theorem findLatestHrrrCycle_correct (probe : Probe) (base : ℤ) (maxLookback : ℕ) :
    findLatestHrrrCycle probe base maxLookback =
      (((List.range (maxLookback + 1)).find? fun h => (probe (base - h)).isOk).elim
        (base - 2) fun h => base - h) :=
  findCycleLoop_eq_find probe base (List.range (maxLookback + 1))

/-- C3: the computed Brunt-Väisälä frequency equals
`sqrt(max((g/θ_mean)·(θ_500 − θ_850)/(z_500 − z_850), 1e-6))` with `g = 9.81`
and `θ(T,p) = T·(1000/p)^0.286`; whenever the raw N² expression is ≤ 0 the
result is exactly `sqrt(1e-6)`; and the result is always a strictly positive
real (the argument of the square root is ≥ 1e-6, never negative). -/
theorem bruntVaisala_clamp (t850 t500 gh850 gh500 : ℝ) :
    bruntVaisala t850 t500 gh850 gh500 =
      Real.sqrt (max (rawN2 t850 t500 gh850 gh500) 1e-6) ∧
    (rawN2 t850 t500 gh850 gh500 ≤ 0 →
      bruntVaisala t850 t500 gh850 gh500 = Real.sqrt 1e-6) ∧
    0 < bruntVaisala t850 t500 gh850 gh500 := by
  have hdef : bruntVaisala t850 t500 gh850 gh500 =
      Real.sqrt (max (rawN2 t850 t500 gh850 gh500) 1e-6) := rfl
  refine ⟨hdef, fun hle => ?_, ?_⟩
  · rw [hdef, max_eq_right (le_trans hle (by norm_num))]
  · rw [hdef]
    exact Real.sqrt_pos.mpr (lt_of_lt_of_le (by norm_num) (le_max_right _ _))

/-- At temperatures `T_850 = 300 K`, `T_500 = 1 K` (with `z_850 = 0`,
`z_500 = 1000 m`) the raw N² expression is negative: `θ_850 ≥ 300` while
`θ_500 ≤ 2`. -/
theorem rawN2_nonpos_at_inputs : rawN2 300 1 0 1000 ≤ 0 := by
  have h850 : (300:ℝ) ≤ potentialTemp 300 850 := by
    have hb : (1:ℝ) ≤ 1000 / 850 := by norm_num
    have h0 : (1000 / 850 : ℝ) ^ (0:ℝ) ≤ (1000 / 850 : ℝ) ^ (0.286:ℝ) :=
      Real.rpow_le_rpow_of_exponent_le hb (by norm_num)
    rw [Real.rpow_zero] at h0
    calc (300:ℝ) = 300 * 1 := by ring
    _ ≤ 300 * (1000 / 850 : ℝ) ^ (0.286:ℝ) := by nlinarith
    _ = potentialTemp 300 850 := rfl
  have h500 : potentialTemp 1 500 ≤ 2 := by
    have h1 : (1000 / 500 : ℝ) ^ (0.286:ℝ) ≤ (1000 / 500 : ℝ) ^ (1:ℝ) :=
      Real.rpow_le_rpow_of_exponent_le (by norm_num) (by norm_num)
    rw [Real.rpow_one] at h1
    calc potentialTemp 1 500 = (1000 / 500 : ℝ) ^ (0.286:ℝ) := by
          rw [potentialTemp, one_mul]
    _ ≤ 1000 / 500 := h1
    _ = 2 := by norm_num
  have hp850 : (0:ℝ) < potentialTemp 300 850 := by linarith
  have hp500 : (0:ℝ) < potentialTemp 1 500 := by
    have := Real.rpow_pos_of_pos (show (0:ℝ) < 1000 / 500 by norm_num) (0.286:ℝ)
    rw [potentialTemp, one_mul]; exact this
  have hmean : (0:ℝ) < 0.5 * (potentialTemp 300 850 + potentialTemp 1 500) := by
    linarith
  have hdiff : potentialTemp 1 500 - potentialTemp 300 850 ≤ 0 := by linarith
  rw [rawN2]
  have hg : (0:ℝ) < 9.81 / (0.5 * (potentialTemp 300 850 + potentialTemp 1 500)) :=
    div_pos (by norm_num) hmean
  have hq : (potentialTemp 1 500 - potentialTemp 300 850) / ((1000:ℝ) - 0) ≤ 0 :=
    div_nonpos_of_nonpos_of_nonneg hdiff (by norm_num)
  exact mul_nonpos_of_nonneg_of_nonpos (le_of_lt hg) hq

/-- Witness for C3: at the concrete input `(300, 1, 0, 1000)` the raw N² is
≤ 0 and the computed N equals `sqrt(1e-6)`. -/
theorem bruntVaisala_clamp_witness :
    rawN2 300 1 0 1000 ≤ 0 ∧ bruntVaisala 300 1 0 1000 = Real.sqrt 1e-6 :=
  ⟨rawN2_nonpos_at_inputs,
    (bruntVaisala_clamp 300 1 0 1000).2.1 rawN2_nonpos_at_inputs⟩

/-- C2 counterexample: the claim's gate quantifies over 200-mb windows lying
entirely within 500–700 mb (only `[500, 700]` qualifies).  For the column
`rhCounter` that window's mean RH is 200/9 ≈ 22.2 % < 80 %, yet the code's
gate passes (its truncated window `[675, 700]` has mean 100 %) and the cell's
virga_pct is 100, not 0. -/
theorem virga_gate_counterexample :
    specMaxWindowMean rhCounter < 80 ∧ virgaPct rhCounter = 100 ∧
      (100 : ℚ) ≠ 0 := by
  refine ⟨?_, ?_, by norm_num⟩
  · norm_num [specMaxWindowMean, upperLevels, LEVELS_MB, meanRH, rhCounter,
      List.filter, List.foldl]
  · norm_num [virgaPct, maxUpperRh, maxRhDecrease, meanRH, windowFor,
      upperLevels, scanLevels, LEVELS_MB, rhCounter, List.filter, List.foldl]

/-- C2 (amended): the gate's windows are anchored at each level `L ≤ 700` and
truncated to the available levels `≤ 700`, so every window is the suffix
`[L, 700]`; a cell's virga_pct is forced to 0 unless the maximum over these
windows (of ≥ 2 levels) of the mean RH is at least 80 %, regardless of the
100-mb RH decrease elsewhere in the column. -/
theorem virgaPct_gate (rh : RHColumn) (hgate : maxUpperRh rh < 80) :
    virgaPct rh = 0 ∧
    ∀ levTop, levTop ∈ upperLevels →
      windowFor levTop = upperLevels.filter fun lev => levTop ≤ lev := by
  constructor
  · have hnot : ¬ (maxUpperRh rh ≥ 80) := not_le.mpr hgate
    simp [virgaPct, hnot]
  · intro levTop hmem
    fin_cases hmem <;> decide

/-- Witness for C2 (amended): for the column `rhWitness` every window mean is
79.999 % < 80, the largest 100-mb RH decrease is 95 %, and the output
virga_pct is 0. -/
theorem virgaPct_gate_witness :
    maxUpperRh rhWitness < 80 ∧ maxRhDecrease rhWitness = 95 ∧
      virgaPct rhWitness = 0 :=
  ⟨by norm_num [maxUpperRh, meanRH, windowFor, upperLevels, LEVELS_MB,
      rhWitness, List.filter, List.foldl],
   by norm_num [maxRhDecrease, scanLevels, LEVELS_MB, rhWitness, List.foldl],
   (virgaPct_gate rhWitness
      (by norm_num [maxUpperRh, meanRH, windowFor, upperLevels, LEVELS_MB,
        rhWitness, List.filter, List.foldl])).1⟩

/-- A successful cache lookup returns an entry actually stored at that key. -/
theorem mem_of_lookupCache {α : Type} {c : KeyedCache α} {k : String × ℕ}
    {e : CacheEntry α} (h : lookupCache c k = some e) : (k, e) ∈ c := by
  unfold lookupCache at h
  cases hf : c.find? (fun p => decide (p.1 = k)) with
  | none => rw [hf] at h; exact Option.noConfusion h
  | some p =>
    rw [hf] at h
    have h2 : p.2 = e := Option.some.inj h
    have hmem := List.mem_of_find?_eq_some hf
    have hpk := List.find?_some hf
    simp only [decide_eq_true_eq] at hpk
    rw [← h2, ← hpk]
    simpa using hmem

/-- Inserting a payload computed for its own key preserves well-formedness. -/
theorem keyedCacheWF_insert {α : Type} {fetch : String → ℕ → α}
    {c : KeyedCache α} (hwf : KeyedCacheWF fetch c) (k : String × ℕ) (now : ℚ)
    (d : α) (hd : d = fetch k.1 k.2) :
    KeyedCacheWF fetch (insertCache c k ⟨now, d⟩) := by
  intro k' e' hmem
  rcases List.mem_cons.mp hmem with heq | hmem'
  · rw [Prod.mk.injEq] at heq
    rw [heq.1, heq.2]
    exact hd
  · exact hwf k' e' (List.mem_of_mem_filter hmem')

/-- The keyed froude/virga cache body returns the payload `fetch` computes
for the requested key, and preserves well-formedness. -/
theorem getFroudeCached_correct {α : Type} (fetch : String → ℕ → α)
    (cycle : String) (fxx : ℕ) (ttl now : ℚ) (c : KeyedCache α)
    (hwf : KeyedCacheWF fetch c) :
    (getFroudeCached fetch cycle fxx ttl now c).1 = fetch cycle fxx ∧
    KeyedCacheWF fetch (getFroudeCached fetch cycle fxx ttl now c).2 := by
  cases hl : lookupCache c (cycle, fxx) with
  | none =>
    have hg : getFroudeCached fetch cycle fxx ttl now c =
        (fetch cycle fxx, insertCache c (cycle, fxx) ⟨now, fetch cycle fxx⟩) := by
      unfold getFroudeCached; rw [hl]
    rw [hg]
    exact ⟨rfl, keyedCacheWF_insert hwf (cycle, fxx) now _ rfl⟩
  | some e =>
    by_cases hst : now - e.ts > ttl
    · have hg : getFroudeCached fetch cycle fxx ttl now c =
          (fetch cycle fxx, insertCache c (cycle, fxx) ⟨now, fetch cycle fxx⟩) := by
        unfold getFroudeCached
        rw [hl]
        show (if now - e.ts > ttl then
            (fetch cycle fxx, insertCache c (cycle, fxx) ⟨now, fetch cycle fxx⟩)
          else (e.data, c)) = _
        rw [if_pos hst]
      rw [hg]
      exact ⟨rfl, keyedCacheWF_insert hwf (cycle, fxx) now _ rfl⟩
    · have hg : getFroudeCached fetch cycle fxx ttl now c = (e.data, c) := by
        unfold getFroudeCached
        rw [hl]
        show (if now - e.ts > ttl then
            (fetch cycle fxx, insertCache c (cycle, fxx) ⟨now, fetch cycle fxx⟩)
          else (e.data, c)) = _
        rw [if_neg hst]
      rw [hg]
      exact ⟨hwf (cycle, fxx) e (mem_of_lookupCache hl), hwf⟩

/-- C4 (amended): the froude and virga caches are exact-match keyed by
`(cycle, fxx)` — a read only ever returns the payload computed for its own
key, staleness being decided by comparing the entry's age to the TTL at read
time — but the gust cache is one unkeyed global slot: a fresh read returns
the slot's payload regardless of the requested forecast hour. -/
theorem result_caches_keying (α : Type) (fetchF fetchV : String → ℕ → α)
    (fetchG : ℕ → α) (cycle : String) (fxx : ℕ) (ttl now ts : ℚ)
    (cF cV : KeyedCache α) (d : α)
    (hF : KeyedCacheWF fetchF cF) (hV : KeyedCacheWF fetchV cV)
    (hfresh : ¬ now - ts > ttl) :
    ((getFroudeCached fetchF cycle fxx ttl now cF).1 = fetchF cycle fxx ∧
      KeyedCacheWF fetchF (getFroudeCached fetchF cycle fxx ttl now cF).2) ∧
    ((getVirgaCached fetchV cycle fxx ttl now cV).1 = fetchV cycle fxx ∧
      KeyedCacheWF fetchV (getVirgaCached fetchV cycle fxx ttl now cV).2) ∧
    (getHrrrGustsCached fetchG fxx ttl now ⟨ts, some d⟩).1 = d := by
  refine ⟨getFroudeCached_correct fetchF cycle fxx ttl now cF hF, ?_, ?_⟩
  · exact getFroudeCached_correct fetchV cycle fxx ttl now cV hV
  · simp [getHrrrGustsCached, hfresh]

/-- C4 counterexample: the gust cache is not keyed by `(cycle, fxx)`.  With
the fetcher recording the forecast hour it was computed for, a read for
`fxx = 0` at `t = 0` fills the slot; a read for `fxx = 5` at `t = 10`
(within TTL) returns that `fxx = 0` payload. -/
theorem winds_cache_not_keyed :
    (getHrrrGustsCached (fun f => f) 5 600 10
        ((getHrrrGustsCached (fun f => f) 0 600 0 ⟨0, none⟩).2)).1 = 0 ∧
    (0 : ℕ) ≠ 5 := by
  refine ⟨?_, by decide⟩
  norm_num [getHrrrGustsCached]

/-- Witness for C4 (amended) at concrete inputs: empty keyed caches, a gust
slot holding payload 7 stored at t = 0, read at t = 10 with TTL 600. -/
theorem result_caches_keying_witness :
    KeyedCacheWF (fun _ f => f) ([] : KeyedCache ℕ) ∧ ¬ ((10:ℚ) - 0 > 600) ∧
    (((getFroudeCached (fun _ f => f) "2026-02-22T02:00Z" 1 600 10 []).1 = 1 ∧
        KeyedCacheWF (fun _ f => f)
          (getFroudeCached (fun _ f => f) "2026-02-22T02:00Z" 1 600 10 []).2) ∧
      ((getVirgaCached (fun _ f => f) "2026-02-22T02:00Z" 1 600 10 []).1 = 1 ∧
        KeyedCacheWF (fun _ f => f)
          (getVirgaCached (fun _ f => f) "2026-02-22T02:00Z" 1 600 10 []).2) ∧
      (getHrrrGustsCached (fun f => f) 1 600 10 ⟨0, some 7⟩).1 = 7) := by
  have hwfe : KeyedCacheWF (fun _ f => f) ([] : KeyedCache ℕ) := by
    intro k e h; simp at h
  exact ⟨hwfe, by norm_num,
    result_caches_keying ℕ (fun _ f => f) (fun _ f => f) (fun f => f)
      "2026-02-22T02:00Z" 1 600 10 0 [] [] 7 hwfe hwfe (by norm_num)⟩

/-- C5 counterexample: a grid whose only in-box cell holds a gust of
200 m/s — far outside [0, 150] — is processed without any error: the value is
converted to knots (200 × 1.94384 = 388.768, rounded to 388.8) and emitted.
No WrongFieldSelected condition exists on this path. -/
theorem gust_no_range_check_counterexample :
    gustPointsCore [[39]] [[255]] [[some 200]] =
      .ok [⟨39, -105, 1944/5⟩] ∧ ¬ ((200:ℚ) ≤ 150) := by
  constructor
  · have hn : normalizeLon 255 = -105 := by norm_num [normalizeLon]
    have h1 : inBBox 39 (-105) = true := by
      norm_num [inBBox, CO_LAT_MIN, CO_LAT_MAX, CO_LON_MIN, CO_LON_MAX]
    have hmask : maskIndices [[39]] [[(-105:ℚ)]] = [(0,0)] := by
      simp [maskIndices, List.enum, List.enumFrom, h1]
    have hlat : roundTo 4 39 = 39 := by norm_num [roundTo, roundHalfEven]
    have hlon : roundTo 4 (-105) = -105 := by norm_num [roundTo, roundHalfEven]
    have hg : roundTo 1 ((200:ℚ) * 1.94384) = 1944/5 := by
      norm_num [roundTo, roundHalfEven]
    simp only [gustPointsCore, List.map, hn, hmask]
    simp [slice2d, stride2d, sliceList, everyNth, List.enum, List.enumFrom,
      hlat, hlon, hg]
  · norm_num

/-- C5 (amended): the gust computation performs no range validation at all —
for every gust value `v` (in m/s, however implausible) the emitted record
carries `round(v × 1.94384, 1)` knots and no error is raised, exhibited on a
one-cell grid inside the bounding box. -/
theorem gust_passthrough (v : ℚ) :
    gustPointsCore [[39]] [[255]] [[some v]] =
      .ok [⟨39, -105, roundTo 1 (v * 1.94384)⟩] := by
  have hn : normalizeLon 255 = -105 := by norm_num [normalizeLon]
  have h1 : inBBox 39 (-105) = true := by
    norm_num [inBBox, CO_LAT_MIN, CO_LAT_MAX, CO_LON_MIN, CO_LON_MAX]
  have hmask : maskIndices [[39]] [[(-105:ℚ)]] = [(0,0)] := by
    simp [maskIndices, List.enum, List.enumFrom, h1]
  have hlat : roundTo 4 39 = 39 := by norm_num [roundTo, roundHalfEven]
  have hlon : roundTo 4 (-105) = -105 := by norm_num [roundTo, roundHalfEven]
  simp only [gustPointsCore, List.map, hn, hmask]
  simp [slice2d, stride2d, sliceList, everyNth, List.enum, List.enumFrom,
    hlat, hlon]

/-- A surface file carrying two messages that both match the Orography
selector, and nothing else. -/
def sfcTwoOrography : List (GribMsg ℕ) :=
  [⟨"Orography", "surface", 0, 7⟩, ⟨"Orography", "surface", 0, 9⟩]

/-- C6 counterexample: on a surface file with no height field at all, the
Froude terrain resolution silently returns the 850-mb geopotential height
proxy (here tagged 42) instead of raising, even though the Orography selector
itself reports "Field not found". -/
theorem froude_terrain_silent_default :
    froudeTerrain ([] : List (GribMsg ℕ)) 42 = 42 ∧
    readFieldSel ([] : List (GribMsg ℕ)) "Orography" 0 "surface" =
      .error "Field not found" :=
  ⟨rfl, rfl⟩

/-- C6 (amended): a selector matching no message is a hard error
("Field not found"), but a selector matching several messages resolves to the
first match without error, and the Froude terrain field is silently defaulted:
when both the Orography and Geometric-height selectors fail, the 850-mb
geopotential height is used as the terrain proxy. -/
theorem field_selector_resolution {α : Type} (msgs : List (GribMsg α))
    (name : String) (level : ℕ) (tol : String) (gh850 : α) :
    ((msgs.filter fun m =>
        m.name = name ∧ m.typeOfLevel = tol ∧ m.level = level) = [] →
      readFieldSel msgs name level tol = .error "Field not found") ∧
    (∀ m rest, (msgs.filter fun m =>
        m.name = name ∧ m.typeOfLevel = tol ∧ m.level = level) = m :: rest →
      readFieldSel msgs name level tol = .ok m.data) ∧
    (readFieldSel msgs "Orography" 0 "surface" = .error "Field not found" →
      readFieldSel msgs "Geometric height" 0 "surface" =
        .error "Field not found" →
      froudeTerrain msgs gh850 = gh850) := by
  refine ⟨fun hnil => ?_, fun m rest hcons => ?_, fun h1 h2 => ?_⟩
  · unfold readFieldSel; rw [hnil]
  · unfold readFieldSel; rw [hcons]
  · unfold froudeTerrain; rw [h1, h2]

/-- Witness for C6 (amended): on `sfcTwoOrography` the Geometric-height
selector errors, the doubly-matched Orography selector returns the first
message's data, and on the empty surface file the terrain falls back to the
proxy value 42. -/
theorem field_selector_resolution_witness :
    ((sfcTwoOrography.filter fun m =>
        m.name = "Geometric height" ∧ m.typeOfLevel = "surface" ∧
          m.level = 0) = [] ∧
      readFieldSel sfcTwoOrography "Geometric height" 0 "surface" =
        .error "Field not found") ∧
    ((sfcTwoOrography.filter fun m =>
        m.name = "Orography" ∧ m.typeOfLevel = "surface" ∧ m.level = 0) =
          ⟨"Orography", "surface", 0, 7⟩ :: [⟨"Orography", "surface", 0, 9⟩] ∧
      readFieldSel sfcTwoOrography "Orography" 0 "surface" = .ok 7) ∧
    froudeTerrain ([] : List (GribMsg ℕ)) 42 = 42 :=
  ⟨⟨rfl, (field_selector_resolution sfcTwoOrography "Geometric height" 0
      "surface" 42).1 rfl⟩,
   ⟨rfl, (field_selector_resolution sfcTwoOrography "Orography" 0
      "surface" 42).2.1 ⟨"Orography", "surface", 0, 7⟩
      [⟨"Orography", "surface", 0, 9⟩] rfl⟩,
   (field_selector_resolution ([] : List (GribMsg ℕ)) "Orography" 0
      "surface" 42).2.2 rfl rfl⟩

/-- C9: `get_hrrr_gusts_cached` accepts only `fxx` and `ttl_seconds` — every
call whose keywords include `cycle_utc` (as both the prefetcher's and the
winds route's calls do) fails to bind with a TypeError — and the gust fetch
always re-resolves the latest cycle internally via the lookback resolver, so
no caller can select a cycle. -/
theorem gust_cache_rejects_cycle_kwarg :
    (∀ kwargs : List String, "cycle_utc" ∈ kwargs →
      bindKwargs getHrrrGustsCachedParams kwargs =
        .error "TypeError: unexpected keyword argument") ∧
    bindKwargs getHrrrGustsCachedParams prefetchGustCallKwargs =
      .error "TypeError: unexpected keyword argument" ∧
    bindKwargs getHrrrGustsCachedParams appGustCallKwargs =
      .error "TypeError: unexpected keyword argument" ∧
    ∀ probe base,
      fetchHrrrGustsCycle probe base = findLatestHrrrCycle probe base 6 := by
  refine ⟨fun kwargs hmem => ?_, by rfl, by rfl, fun probe base => rfl⟩
  simp only [bindKwargs, List.all_eq_true, ite_eq_right_iff]
  intro hall
  exact absurd (by decide : ¬ "cycle_utc" ∈ getHrrrGustsCachedParams)
    (by simpa using hall "cycle_utc" hmem)

/-- Witness for C9: the prefetcher's keyword list contains `cycle_utc`, and
binding it against the gust signature fails with the TypeError. -/
theorem gust_cache_rejects_cycle_kwarg_witness :
    "cycle_utc" ∈ prefetchGustCallKwargs ∧
    bindKwargs getHrrrGustsCachedParams prefetchGustCallKwargs =
      .error "TypeError: unexpected keyword argument" :=
  ⟨by decide, gust_cache_rejects_cycle_kwarg.1 prefetchGustCallKwargs
    (by decide)⟩

/-- C10: `winds.py` defines no `get_cycle_status_cached`, so every pass of the
prefetch loop raises at its initial availability import and is swallowed
before any status transition — whatever the unreachable remainder of the body
would do, after any number of passes the state is still the initial one:
every (product, fxx) status is "pending" and the recorded cycle is `None`. -/
theorem prefetch_loop_stuck_pending (rest : PrefetchState → PrefetchState)
    (n : ℕ) :
    (prefetchLoopPass rest)^[n] initPrefetchState = initPrefetchState ∧
    allPending initPrefetchState = true ∧
    initPrefetchState.cycleInUse = none := by
  refine ⟨?_, by decide, rfl⟩
  have hc : windsModuleNames.contains "get_cycle_status_cached" = false := by
    decide
  have hfix : prefetchLoopPass rest initPrefetchState = initPrefetchState := by
    simp only [prefetchLoopPass, ite_eq_right_iff]
    intro hmem
    rw [hc] at hmem
    exact Bool.noConfusion hmem
  exact Function.iterate_fixed hfix n

end Aviation
